import Mathlib

/-!
A shallow embedding of `WorkThread.py`: the `WorkThread` base class that runs
a long computation on a background `threading.Thread` and coordinates with the
UI thread through three `threading.Event` signals (`showResultsEvent`,
`resumeEvent`, `cancelEvent`).  Python values are modelled as follows: a
`threading.Event` is a `Bool` (`set()` writes `true`, `clear()` writes
`false`); a `threading.Thread` handle is the record of its daemon flag,
whether `start()` has been called, and whether the target function has
returned; methods are functions on the instance state, returning the new
state (and a result where the method returns one); `Thread.start`, which
raises `RuntimeError` when called a second time, returns `Except`.
-/

/-- State of a `threading.Thread` handle: the `daemon` flag is fixed at
creation (`threading.Thread(target=..., args=(), daemon=True)`), `started`
records whether `start()` has been called, and `finished` records whether the
target function has returned.  `is_alive()` is true from `start()` until the
target returns. -/
structure ThreadHandle where
  daemon : Bool
  started : Bool
  finished : Bool
  deriving DecidableEq, Repr

/-- The `threading.Thread.start` method: raises `RuntimeError` when the thread
was already started, otherwise marks the same handle as started (no new
handle is ever created). -/
def ThreadHandle.start (h : ThreadHandle) : Except String ThreadHandle :=
  if h.started then
    Except.error "RuntimeError: threads can only be started once"
  else
    Except.ok { h with started := true }

/-- The `threading.Thread.is_alive` query. -/
def ThreadHandle.is_alive (h : ThreadHandle) : Bool :=
  h.started && !h.finished

/-- The instance state of `WorkThread.__init__`: the `solver` and `pb`
references, the private `__threadHandle`, and the three events. -/
structure WorkThread (S P : Type) where
  solver : S
  pb : P
  threadHandle : ThreadHandle
  showResultsEvent : Bool
  resumeEvent : Bool
  cancelEvent : Bool
  deriving DecidableEq, Repr

/-- `WorkThread.__init__(self, solver, puzzleBoard)`: stores the two
references, creates the thread handle with `daemon=True` (not yet started,
target not yet run), and creates the three events, each followed by a
`clear()`, so all three are unset. -/
def WorkThread.init {S P : Type} (solver : S) (puzzleBoard : P) :
    WorkThread S P :=
  { solver := solver
    pb := puzzleBoard
    threadHandle := { daemon := true, started := false, finished := false }
    showResultsEvent := false
    resumeEvent := false
    cancelEvent := false }

/-- `WorkThread.cancelWorkThread(self)`: `self.cancelEvent.set()`. -/
def WorkThread.cancelWorkThread {S P : Type} (t : WorkThread S P) :
    WorkThread S P :=
  { t with cancelEvent := true }

/-- `WorkThread.start(self)`: `self.__threadHandle.start()`.  The class adds
no guard of its own; the `RuntimeError` on a second call comes from
`threading.Thread.start`. -/
def WorkThread.start {S P : Type} (t : WorkThread S P) :
    Except String (WorkThread S P) :=
  match t.threadHandle.start with
  | Except.ok h => Except.ok { t with threadHandle := h }
  | Except.error e => Except.error e

/-- `WorkThread.isAlive(self)`: `self.__threadHandle.is_alive()`. -/
def WorkThread.isAlive {S P : Type} (t : WorkThread S P) : Bool :=
  t.threadHandle.is_alive

/-- `WorkThread.supportsCancelRequest(self)`: `return(False)`. -/
def WorkThread.supportsCancelRequest {S P : Type} (_t : WorkThread S P) :
    Bool :=
  false

/-- `WorkThread.timerHandler(self, parentWindow)`: `return(False)`; it reads
and writes no field of the instance. -/
def WorkThread.timerHandler {S P W : Type} (t : WorkThread S P)
    (_parentWindow : W) : Bool × WorkThread S P :=
  (false, t)

/-- `WorkThread.codeToRunInThread(self)`: the default (non-overridden) body
is `pass`, which changes nothing and returns normally.  Note that although it
carries `@abc.abstractmethod`, the class is declared `class WorkThread():`
without the `abc.ABC` metaclass, so the decorator enforces nothing:
instantiation succeeds and the body is callable. -/
def WorkThread.codeToRunInThread {S P : Type} (t : WorkThread S P) :
    WorkThread S P :=
  t

/-- Runtime event of the work thread's target function returning (by normal
completion or cancellation exit): the handle's target is finished, which is
what flips `is_alive()` to false. -/
def WorkThread.bodyReturn {S P : Type} (t : WorkThread S P) :
    WorkThread S P :=
  { t with threadHandle := { t.threadHandle with finished := true } }

/-- The operations of a `WorkThread` instance, as observed by its state:
every public method of the class, plus the runtime event of the work body
returning. -/
inductive WorkOp (W : Type) where
  | cancelOp
  | startOp
  | isAliveOp
  | supportsCancelRequestOp
  | timerHandlerOp (parentWindow : W)
  | codeToRunInThreadOp
  | bodyReturnOp
  deriving DecidableEq, Repr

/-- The state transition of one operation.  Pure queries leave the state
unchanged; a `start()` that raises leaves the state unchanged; the work body
can only return while the thread is actually running (a Python thread's
target is first entered by `start()` and returns once). -/
def WorkThread.step {S P W : Type} (t : WorkThread S P) :
    WorkOp W → WorkThread S P
  | WorkOp.cancelOp => t.cancelWorkThread
  | WorkOp.startOp =>
      match t.start with
      | Except.ok t2 => t2
      | Except.error _ => t
  | WorkOp.isAliveOp => t
  | WorkOp.supportsCancelRequestOp => t
  | WorkOp.timerHandlerOp w => (t.timerHandler w).2
  | WorkOp.codeToRunInThreadOp => t.codeToRunInThread
  | WorkOp.bodyReturnOp => if t.isAlive then t.bodyReturn else t

/-- Running a sequence of operations from a state. -/
def WorkThread.run {S P W : Type} (t : WorkThread S P) (ops : List (WorkOp W)) :
    WorkThread S P :=
  ops.foldl WorkThread.step t

/-- No single operation clears `cancelEvent`. -/
theorem step_preserves_cancelEvent {S P W : Type} (t : WorkThread S P)
    (op : WorkOp W) (h : t.cancelEvent = true) :
    (t.step op).cancelEvent = true := by
  cases op with
  | cancelOp => rfl
  | startOp =>
    simp only [WorkThread.step, WorkThread.start, ThreadHandle.start]
    by_cases hs : t.threadHandle.started = true <;> simp [hs, h]
  | isAliveOp => exact h
  | supportsCancelRequestOp => exact h
  | timerHandlerOp w => exact h
  | codeToRunInThreadOp => exact h
  | bodyReturnOp =>
    simp only [WorkThread.step]
    split
    · exact h
    · exact h

/-- Claim C3: for every solver and subject, construction initializes all
three signals to the unset state and prepares the background execution
context without starting it, so `isAlive()` is false and no thread has run
before `start()` is called. -/
theorem init_signals_unset_thread_not_started {S P : Type}
    (solver : S) (puzzleBoard : P) :
    (WorkThread.init solver puzzleBoard).showResultsEvent = false ∧
    (WorkThread.init solver puzzleBoard).resumeEvent = false ∧
    (WorkThread.init solver puzzleBoard).cancelEvent = false ∧
    (WorkThread.init solver puzzleBoard).threadHandle.started = false ∧
    (WorkThread.init solver puzzleBoard).threadHandle.finished = false ∧
    (WorkThread.init solver puzzleBoard).isAlive = false ∧
    (WorkThread.init solver puzzleBoard).solver = solver ∧
    (WorkThread.init solver puzzleBoard).pb = puzzleBoard := by
  refine ⟨rfl, rfl, rfl, rfl, rfl, rfl, rfl, rfl⟩

/-- Claim C5: `cancelWorkThread()` only sets `cancelEvent`; it leaves the
solver, the subject, the thread handle and the other two signals unchanged,
and (being a plain `Event.set()`) it does not wait for the worker to stop:
the liveness of the thread is unchanged. -/
theorem cancelWorkThread_frame {S P : Type} (t : WorkThread S P) :
    t.cancelWorkThread.cancelEvent = true ∧
    t.cancelWorkThread.solver = t.solver ∧
    t.cancelWorkThread.pb = t.pb ∧
    t.cancelWorkThread.threadHandle = t.threadHandle ∧
    t.cancelWorkThread.showResultsEvent = t.showResultsEvent ∧
    t.cancelWorkThread.resumeEvent = t.resumeEvent ∧
    t.cancelWorkThread.isAlive = t.isAlive := by
  refine ⟨rfl, rfl, rfl, rfl, rfl, rfl, rfl⟩

/-- Claim C6: the default `supportsCancelRequest()` returns false for every
instance, in every state. -/
theorem supportsCancelRequest_false {S P : Type} (t : WorkThread S P) :
    t.supportsCancelRequest = false :=
  rfl

/-- Claim C7: the default `timerHandler(parentWindow)` returns false for
every argument and every instance state, and leaves the whole instance state
(all three signals, solver, subject, thread handle) unchanged. -/
theorem timerHandler_false_and_pure {S P W : Type} (t : WorkThread S P)
    (parentWindow : W) :
    t.timerHandler parentWindow = (false, t) :=
  rfl

/-- Claim C10: the background execution context prepared at construction is
created with the daemon flag set. -/
theorem init_thread_is_daemon {S P : Type} (solver : S) (puzzleBoard : P) :
    (WorkThread.init solver puzzleBoard).threadHandle.daemon = true :=
  rfl

/-- No single operation other than `startOp` starts the thread. -/
theorem step_preserves_unstarted {S P W : Type} (t : WorkThread S P)
    (op : WorkOp W) (hop : op ≠ WorkOp.startOp)
    (h : t.threadHandle.started = false) :
    (t.step op).threadHandle.started = false := by
  cases op with
  | cancelOp => exact h
  | startOp => exact absurd rfl hop
  | isAliveOp => exact h
  | supportsCancelRequestOp => exact h
  | timerHandlerOp w => exact h
  | codeToRunInThreadOp => exact h
  | bodyReturnOp =>
    simp only [WorkThread.step]
    split
    · exact h
    · exact h

/-- Running any sequence of operations that never calls `start()` leaves the
thread unstarted. -/
theorem run_preserves_unstarted {S P W : Type} (t : WorkThread S P)
    (ops : List (WorkOp W)) (hno : WorkOp.startOp ∉ ops)
    (h : t.threadHandle.started = false) :
    (t.run ops).threadHandle.started = false := by
  induction ops generalizing t with
  | nil => exact h
  | cons op rest ih =>
    have h1 : op ≠ WorkOp.startOp := by
      rintro rfl
      exact hno (List.mem_cons_self _ _)
    have h2 : WorkOp.startOp ∉ rest := fun hc => hno (List.mem_cons_of_mem _ hc)
    exact ih _ h2 (step_preserves_unstarted t op h1 h)

/-- Every operation preserves the invariant that the target can only have
finished on a thread that was started. -/
theorem step_preserves_finished_imp_started {S P W : Type}
    (t : WorkThread S P) (op : WorkOp W)
    (h : t.threadHandle.finished = true → t.threadHandle.started = true) :
    (t.step op).threadHandle.finished = true →
      (t.step op).threadHandle.started = true := by
  cases op with
  | cancelOp => exact h
  | startOp =>
    simp only [WorkThread.step, WorkThread.start, ThreadHandle.start]
    by_cases hs : t.threadHandle.started = true <;> simp [hs, h]
  | isAliveOp => exact h
  | supportsCancelRequestOp => exact h
  | timerHandlerOp w => exact h
  | codeToRunInThreadOp => exact h
  | bodyReturnOp =>
    simp only [WorkThread.step]
    split
    · rename_i halive
      simp only [WorkThread.isAlive, ThreadHandle.is_alive, Bool.and_eq_true,
        Bool.not_eq_true'] at halive
      intro _
      exact halive.1
    · exact h

/-- The invariant holds in every state reachable from construction. -/
theorem run_init_finished_imp_started {S P W : Type} (s : S) (p : P)
    (ops : List (WorkOp W)) :
    ((WorkThread.init s p).run ops).threadHandle.finished = true →
      ((WorkThread.init s p).run ops).threadHandle.started = true := by
  suffices hgen : ∀ (t : WorkThread S P),
      (t.threadHandle.finished = true → t.threadHandle.started = true) →
      ((t.run ops).threadHandle.finished = true →
        (t.run ops).threadHandle.started = true) by
    exact hgen (WorkThread.init s p) (fun hf => by simp [WorkThread.init] at hf)
  induction ops with
  | nil => exact fun t h => h
  | cons op rest ih =>
    exact fun t h => ih _ (step_preserves_finished_imp_started t op h)

/-- Any operation other than the work body returning keeps a live thread
alive. -/
theorem step_preserves_alive {S P W : Type} (u : WorkThread S P)
    (op : WorkOp W) (hop : op ≠ WorkOp.bodyReturnOp)
    (hu : u.isAlive = true) : (u.step op).isAlive = true := by
  cases op with
  | cancelOp => exact hu
  | startOp =>
    have hs : u.threadHandle.started = true := by
      simp only [WorkThread.isAlive, ThreadHandle.is_alive, Bool.and_eq_true,
        Bool.not_eq_true'] at hu
      exact hu.1
    simp [WorkThread.step, WorkThread.start, ThreadHandle.start, hs, hu]
  | isAliveOp => exact hu
  | supportsCancelRequestOp => exact hu
  | timerHandlerOp w => exact hu
  | codeToRunInThreadOp => exact hu
  | bodyReturnOp => exact absurd rfl hop

/-- Claim C1: the cancel signal is monotonic: once `cancelWorkThread()` has
set `cancelEvent`, no sequence of operations of the class ever clears it
again, and calling `cancelWorkThread()` a second time is a no-op: it yields
the identical instance state, so it is unobservable to any reader. -/
theorem cancelSignal_monotonic {S P W : Type} (t : WorkThread S P)
    (ops : List (WorkOp W)) (h : t.cancelEvent = true) :
    (t.run ops).cancelEvent = true ∧
    t.cancelWorkThread.cancelWorkThread = t.cancelWorkThread := by
  refine ⟨?_, rfl⟩
  induction ops generalizing t with
  | nil => exact h
  | cons op rest ih => exact ih _ (step_preserves_cancelEvent t op h)

/-- Witness for C1 at a concrete instance: cancel, then start and let the
body return; the signal is still set, and a second cancel is the identity. -/
theorem cancelSignal_monotonic_witness :
    (((WorkThread.init (0 : Nat) (0 : Nat)).cancelWorkThread).run
        [WorkOp.startOp, (WorkOp.bodyReturnOp : WorkOp Nat)]).cancelEvent
      = true ∧
    ((WorkThread.init (0 : Nat) (0 : Nat)).cancelWorkThread).cancelWorkThread
      = (WorkThread.init (0 : Nat) (0 : Nat)).cancelWorkThread :=
  cancelSignal_monotonic (WorkThread.init 0 0).cancelWorkThread
    [WorkOp.startOp, WorkOp.bodyReturnOp] (by decide)

/-- Outcome of the worker's pause wait: woken by the resume signal, or woken
by the cancel signal. -/
inductive WaitOutcome where
  | resumed
  | cancelled
  deriving DecidableEq, Repr

/-- Modelled from the spec: the worker's wait on `resumeEvent` while paused is
not in `WorkThread.py`; it lives in the concrete work bodies that subclass
`WorkThread`, which are not part of this source.  Section 4.1 requires that
"any wait on `resumeSignal` performed by the worker must be structured as a
wait that also wakes on `cancelSignal` (e.g., a short-timeout poll loop or a
compound wait)".  One poll cycle of that wait: the worker observes
`cancelEvent` and `resumeEvent`; `none` means the wait-cycle timeout expired
with neither signal set, so the worker waits for another cycle. -/
def pauseWaitCycle {S P : Type} (t : WorkThread S P) : Option WaitOutcome :=
  if t.cancelEvent then some WaitOutcome.cancelled
  else if t.resumeEvent then some WaitOutcome.resumed
  else none

/-- Modelled from the spec: the paused worker repeats poll cycles (each one
wait-cycle timeout long) until a signal is observed; `fuel` bounds the number
of cycles, `none` meaning the worker is still waiting after that many. -/
def pauseWaitLoop {S P : Type} : Nat → WorkThread S P → Option WaitOutcome
  | 0, _ => none
  | n + 1, t =>
    match pauseWaitCycle t with
    | some o => some o
    | none => pauseWaitLoop n t

/-- Claim C2: if `cancelWorkThread()` is called while the worker is blocked
in the paused state (so `resumeEvent` is unset and the controller never sets
it), the cancellation is observed by the very next poll cycle: the worker's
wait returns the cancelled outcome within one wait-cycle timeout, for every
remaining fuel, rather than hanging. -/
theorem cancel_observable_while_paused {S P : Type} (t : WorkThread S P)
    (hr : t.resumeEvent = false) :
    pauseWaitCycle t.cancelWorkThread = some WaitOutcome.cancelled ∧
    t.cancelWorkThread.resumeEvent = false ∧
    ∀ n : Nat,
      pauseWaitLoop (n + 1) t.cancelWorkThread = some WaitOutcome.cancelled := by
  refine ⟨rfl, hr, fun n => ?_⟩
  simp [pauseWaitLoop, pauseWaitCycle, WorkThread.cancelWorkThread]

/-- Witness for C2 at a concrete paused instance. -/
theorem cancel_observable_while_paused_witness :
    pauseWaitCycle (WorkThread.init (0 : Nat) (0 : Nat)).cancelWorkThread
        = some WaitOutcome.cancelled ∧
    (WorkThread.init (0 : Nat) (0 : Nat)).cancelWorkThread.resumeEvent
        = false ∧
    ∀ n : Nat,
      pauseWaitLoop (n + 1) (WorkThread.init (0 : Nat) (0 : Nat)).cancelWorkThread
        = some WaitOutcome.cancelled :=
  cancel_observable_while_paused (WorkThread.init 0 0) (by decide)

/-- Claim C4: `isAlive()` is a pure query of the instance state; it is false
in every state reached from construction without calling `start()`; it is
true immediately after a successful `start()`; it stays true under every
operation except the work body returning; and it is false as soon as the work
body returns. -/
theorem isAlive_lifecycle {S P W : Type} (s : S) (p : P)
    (ops ops2 : List (WorkOp W)) (t2 u : WorkThread S P) (op : WorkOp W)
    (hno : WorkOp.startOp ∉ ops)
    (hstart : ((WorkThread.init s p).run ops2).start = Except.ok t2)
    (hu : u.isAlive = true) (hop : op ≠ WorkOp.bodyReturnOp) :
    ((WorkThread.init s p).run ops).isAlive = false ∧
    t2.isAlive = true ∧
    (WorkThread.step u op).isAlive = true ∧
    (WorkThread.step u (WorkOp.bodyReturnOp : WorkOp W)).isAlive = false := by
  refine ⟨?_, ?_, step_preserves_alive u op hop hu, ?_⟩
  · have h1 := run_preserves_unstarted (WorkThread.init s p) ops hno rfl
    simp [WorkThread.isAlive, ThreadHandle.is_alive, h1]
  · have hinv := run_init_finished_imp_started s p ops2
    simp only [WorkThread.start, ThreadHandle.start] at hstart
    by_cases hs :
        ((WorkThread.init s p).run ops2).threadHandle.started = true
    · simp [hs] at hstart
    · have hfin :
          ((WorkThread.init s p).run ops2).threadHandle.finished = false := by
        cases hfv : ((WorkThread.init s p).run ops2).threadHandle.finished with
        | false => rfl
        | true => exact absurd (hinv hfv) hs
      simp [hs, hfin] at hstart
      subst hstart
      simp [WorkThread.isAlive, ThreadHandle.is_alive]
  · simp only [WorkThread.step, hu, if_true]
    simp [WorkThread.bodyReturn, WorkThread.isAlive, ThreadHandle.is_alive]

/-- Witness for C4 at concrete inputs: a trace with no `start()`, a first
`start()` from construction, and a running instance. -/
theorem isAlive_lifecycle_witness :
    ((WorkThread.init (0 : Nat) (0 : Nat)).run
        [(WorkOp.cancelOp : WorkOp Nat), WorkOp.bodyReturnOp]).isAlive
      = false ∧
    ({ solver := 0, pb := 0,
       threadHandle := { daemon := true, started := true, finished := false },
       showResultsEvent := false, resumeEvent := false, cancelEvent := false } :
        WorkThread Nat Nat).isAlive = true ∧
    (WorkThread.step
      ({ solver := 0, pb := 0,
         threadHandle := { daemon := true, started := true, finished := false },
         showResultsEvent := false, resumeEvent := false,
         cancelEvent := false } : WorkThread Nat Nat)
      (WorkOp.cancelOp : WorkOp Nat)).isAlive = true ∧
    (WorkThread.step
      ({ solver := 0, pb := 0,
         threadHandle := { daemon := true, started := true, finished := false },
         showResultsEvent := false, resumeEvent := false,
         cancelEvent := false } : WorkThread Nat Nat)
      (WorkOp.bodyReturnOp : WorkOp Nat)).isAlive = false :=
  isAlive_lifecycle 0 0 [WorkOp.cancelOp, WorkOp.bodyReturnOp] []
    { solver := 0, pb := 0,
      threadHandle := { daemon := true, started := true, finished := false },
      showResultsEvent := false, resumeEvent := false, cancelEvent := false }
    { solver := 0, pb := 0,
      threadHandle := { daemon := true, started := true, finished := false },
      showResultsEvent := false, resumeEvent := false, cancelEvent := false }
    WorkOp.cancelOp (by decide) rfl rfl (by decide)

/-- Claim C9: a second `start()` on the same instance fails loudly.  The
class adds no guard of its own (`WorkThread.start` only delegates to the
handle); the `RuntimeError` comes from `threading.Thread.start`.  No second
background execution context is ever created: a successful first `start()`
returns the construction-time handle merely marked started, and the second
call raises instead of spawning or reusing anything. -/
theorem start_twice_raises {S P : Type} (t t1 : WorkThread S P)
    (h : t.start = Except.ok t1) :
    t1.start = Except.error "RuntimeError: threads can only be started once" ∧
    t1.threadHandle = { t.threadHandle with started := true } := by
  simp only [WorkThread.start, ThreadHandle.start] at h
  by_cases hs : t.threadHandle.started = true
  · simp [hs] at h
  · simp [hs] at h
    subst h
    exact ⟨rfl, rfl⟩

/-- Witness for C9: starting a freshly constructed instance succeeds, and
the second `start()` raises. -/
theorem start_twice_raises_witness :
    ({ solver := 0, pb := 0,
       threadHandle := { daemon := true, started := true, finished := false },
       showResultsEvent := false, resumeEvent := false, cancelEvent := false } :
        WorkThread Nat Nat).start =
      Except.error "RuntimeError: threads can only be started once" ∧
    ({ solver := 0, pb := 0,
       threadHandle := { daemon := true, started := true, finished := false },
       showResultsEvent := false, resumeEvent := false, cancelEvent := false } :
        WorkThread Nat Nat).threadHandle =
      { (WorkThread.init (0 : Nat) (0 : Nat)).threadHandle with
        started := true } :=
  start_twice_raises (WorkThread.init 0 0)
    { solver := 0, pb := 0,
      threadHandle := { daemon := true, started := true, finished := false },
      showResultsEvent := false, resumeEvent := false, cancelEvent := false }
    rfl

/-- Claim C8, which the code refutes: `WorkThread` is declared as
`class WorkThread():`, without the `abc.ABC` base class or `ABCMeta`
metaclass, so the `@abc.abstractmethod` marking on `codeToRunInThread`
enforces nothing at runtime.  A concrete type that overrides none of the
work body is constructed without error, `start()` succeeds, the default body
`pass` runs as the thread target changing nothing, and the thread terminates
silently: no assertion or panic occurs at any point in the lifecycle. -/
theorem default_body_runs_silently :
    (WorkThread.init () ()).start =
      Except.ok
        ({ solver := (), pb := (),
           threadHandle :=
             { daemon := true, started := true, finished := false },
           showResultsEvent := false, resumeEvent := false,
           cancelEvent := false } : WorkThread Unit Unit) ∧
    (∀ (S P : Type) (t : WorkThread S P), t.codeToRunInThread = t) ∧
    ((WorkThread.init () ()).run
        [(WorkOp.startOp : WorkOp Unit), WorkOp.codeToRunInThreadOp,
          WorkOp.bodyReturnOp]).isAlive = false :=
  ⟨rfl, fun _ _ _ => rfl, rfl⟩
